import Mathlib

/-!
Verification of the rolling-restart orchestrator (crate-rolling-restart).

This file shallowly embeds the parts of the Python source that the claims
C1-C10 are about:

* `rr/maintenance_windows.py` — `MaintenanceWindowChecker` (window membership,
  ordinal-day matching, next-window search, the should-wait decision);
* `rr/activities.py` — `check_cluster_health`, `delete_pod`,
  `decommission_pod` with its two strategies, `_find_statefulset`;
* `rr/state_machines.py` — `PodRestartStateMachine.run` and
  `ClusterRestartStateMachine.run` (signal handling, status query).

Pure Python functions become Lean functions; Kubernetes / SQL effects are
passed in as explicit read/exec outcomes; Python exceptions become
`Except String`.  Dates are proleptic-Gregorian triples with Python's
`date.toordinal` arithmetic; times of day are seconds.
-/

namespace RR

/-! ## Python-style character/string helpers (structural, kernel-reducible) -/

/-- Split a character list on a separator, keeping empty groups, like
Python's `str.split(sep)` / the groups of `String.splitOn`. -/
def splitChars (sep : Char) : List Char → List (List Char)
  | [] => [[]]
  | c :: rest =>
    let r := splitChars sep rest
    if c = sep then [] :: r
    else
      match r with
      | [] => [[c]]
      | g :: gs => (c :: g) :: gs

/-- Python `str.rsplit("-", 1)[-1]`: the substring after the final `-`
(the whole string when there is no `-`). -/
def pyRsplitLastDash (s : String) : String :=
  String.mk ((splitChars '-' s.data).getLastD [])

/-- Python `str.strip()` (ASCII space only, which is all the inputs use). -/
def pyStrip (s : List Char) : List Char :=
  ((s.dropWhile (· = ' ')).reverse.dropWhile (· = ' ')).reverse

/-- A `\w` character of the ordinal-day regex: alphanumeric or underscore. -/
def isWordChar (c : Char) : Bool :=
  c.isAlphanum || c = '_'

/-- Python `str.lower()` (ASCII). -/
def pyLower (s : List Char) : List Char :=
  s.map Char.toLower

/-! ## Dates and datetimes (proleptic Gregorian, as Python's `datetime`) -/

/-- Gregorian leap year, as `calendar`/`datetime` use. -/
def isLeapYear (y : Nat) : Bool :=
  y % 4 = 0 && (y % 100 ≠ 0 || y % 400 = 0)

/-- `calendar.monthrange(y, m)[1]`: number of days in the month. -/
def daysInMonth (y m : Nat) : Nat :=
  if m = 1 then 31 else if m = 2 then (if isLeapYear y then 29 else 28)
  else if m = 3 then 31 else if m = 4 then 30 else if m = 5 then 31
  else if m = 6 then 30 else if m = 7 then 31 else if m = 8 then 31
  else if m = 9 then 30 else if m = 10 then 31 else if m = 11 then 30
  else 31

/-- A calendar date. -/
structure Date where
  year : Nat
  month : Nat
  day : Nat
deriving DecidableEq

/-- Days in all years before `y` (Python's `_days_before_year`). -/
def daysBeforeYear (y : Nat) : Nat :=
  365 * (y - 1) + (y - 1) / 4 - (y - 1) / 100 + (y - 1) / 400

/-- Days in the months of `y` before month `m`. -/
def daysBeforeMonth (y m : Nat) : Nat :=
  ((List.range (m - 1)).map (fun k => daysInMonth y (k + 1))).sum

/-- Python `date.toordinal()`: day count with 0001-01-01 ↦ 1. -/
def Date.toOrd (d : Date) : Nat :=
  daysBeforeYear d.year + daysBeforeMonth d.year d.month + d.day

/-- Python `date.weekday()`: Monday = 0 … Sunday = 6. -/
def Date.pyWeekday (d : Date) : Nat :=
  (d.toOrd + 6) % 7

/-- The next calendar day. -/
def Date.next (d : Date) : Date :=
  if d.day < daysInMonth d.year d.month then ⟨d.year, d.month, d.day + 1⟩
  else if d.month < 12 then ⟨d.year, d.month + 1, 1⟩
  else ⟨d.year + 1, 1, 1⟩

/-- The previous calendar day. -/
def Date.prev (d : Date) : Date :=
  if d.day > 1 then ⟨d.year, d.month, d.day - 1⟩
  else if d.month > 1 then ⟨d.year, d.month - 1, daysInMonth d.year (d.month - 1)⟩
  else ⟨d.year - 1, 12, 31⟩

/-- A UTC datetime: date plus second-of-day (< 86400). -/
structure DateTime where
  date : Date
  sec : Nat
deriving DecidableEq

/-- Python datetime comparison `a <= b` (both UTC-aware). -/
def dtLe (a b : DateTime) : Bool :=
  a.date.toOrd < b.date.toOrd || (a.date.toOrd = b.date.toOrd && a.sec ≤ b.sec)

/-- Python datetime comparison `a < b`. -/
def dtLt (a b : DateTime) : Bool :=
  a.date.toOrd < b.date.toOrd || (a.date.toOrd = b.date.toOrd && a.sec < b.sec)

/-- Python `a - b` in whole seconds (`timedelta.total_seconds`). -/
def dtDiffSeconds (a b : DateTime) : Int :=
  ((a.date.toOrd : Int) - b.date.toOrd) * 86400 + ((a.sec : Int) - b.sec)

/-- Python `t + timedelta(days=n)`. -/
def dtAddDays (t : DateTime) (n : Nat) : DateTime :=
  ⟨Nat.rec t.date (fun _ d => d.next) n, t.sec⟩

/-- Python `t - timedelta(days=1)`. -/
def dtPrevDay (t : DateTime) : DateTime :=
  ⟨t.date.prev, t.sec⟩

end RR

namespace RR

/-! ## Maintenance windows (`rr/maintenance_windows.py`) -/

/-- A single maintenance window (`MaintenanceWindow`).  Times of day are
seconds (`24:00` is already normalised to `23:59:59 = 86399` by the parser).
`weekdays` / `ordinal_days` are the normalised (lower-case) sets/lists. -/
structure MaintenanceWindow where
  start_time : Nat
  end_time : Nat
  weekdays : Option (List String)
  ordinal_days : Option (List String)
deriving DecidableEq

/-- Per-cluster maintenance configuration (`ClusterMaintenanceConfig`),
restricted to the fields the checker reads. -/
structure ClusterMaintenanceConfig where
  windows : List MaintenanceWindow
  min_window_duration : Nat
deriving DecidableEq

/-- `MaintenanceWindowChecker.WEEKDAY_MAP` in its Python insertion order. -/
def WEEKDAY_MAP : List (String × Nat) :=
  [("monday", 0), ("mon", 0), ("tuesday", 1), ("tue", 1),
   ("wednesday", 2), ("wed", 2), ("thursday", 3), ("thu", 3),
   ("friday", 4), ("fri", 4), ("saturday", 5), ("sat", 5),
   ("sunday", 6), ("sun", 6)]

/-- `MaintenanceWindowChecker.ORDINAL_MAP` (`last ↦ -1`). -/
def ORDINAL_MAP : List (String × Int) :=
  [("1st", 1), ("first", 1), ("2nd", 2), ("second", 2),
   ("3rd", 3), ("third", 3), ("4th", 4), ("fourth", 4),
   ("5th", 5), ("fifth", 5), ("last", -1)]

/-- Association-list lookup (Python dict read `m[k]` / `k in m`). -/
def assocFind {α : Type} (m : List (String × α)) (k : String) : Option α :=
  match m.find? (fun p => p.1 = k) with
  | some p => some p.2
  | none => none

/-- The regex `^(\w+)\s+(\w+)$` applied to a stripped ordinal-day string:
two whitespace-separated words, as used by `_matches_ordinal_day`. -/
def parseOrdinalDay (s : String) : Option (String × String) :=
  match ((splitChars ' ' (pyStrip s.data)).filter (fun g => g ≠ [])) with
  | [a, b] =>
    if a.all isWordChar && b.all isWordChar then
      some (String.mk a, String.mk b)
    else none
  | _ => none

/-- `_is_nth_weekday_of_month`: is `d` the `ordinal`-th (or, for `-1`, the
last) occurrence of `target_weekday` in its month? -/
def isNthWeekdayOfMonth (d : Date) (targetWeekday : Nat) (ordinal : Int) : Bool :=
  let y := d.year
  let m := d.month
  if ordinal = -1 then
    match (((List.range (daysInMonth y m)).map (· + 1)).reverse.find?
        (fun k => Date.pyWeekday ⟨y, m, k⟩ = targetWeekday)) with
    | some k => d = ⟨y, m, k⟩
    | none => false
  else
    let occurrences := ((List.range (daysInMonth y m)).map (· + 1)).filter
      (fun k => Date.pyWeekday ⟨y, m, k⟩ = targetWeekday)
    match occurrences[(ordinal.toNat - 1)]? with
    | some k => d = ⟨y, m, k⟩
    | none => false

/-- `_matches_ordinal_day`: parse `"<ordinal> <weekday>"`, look both words
up, and defer to `isNthWeekdayOfMonth`. -/
def matchesOrdinalDay (d : Date) (spec : String) : Bool :=
  match parseOrdinalDay spec with
  | none => false
  | some (ordinalStr, weekdayStr) =>
    let ordinalStr := String.mk (pyLower ordinalStr.data)
    let weekdayStr := String.mk (pyLower weekdayStr.data)
    match assocFind ORDINAL_MAP ordinalStr, assocFind WEEKDAY_MAP weekdayStr with
    | some ordinal, some target => isNthWeekdayOfMonth d target ordinal
    | _, _ => false

/-- `_matches_ordinal_days`: any specifier matches. -/
def matchesOrdinalDays (d : Date) (specs : List String) : Bool :=
  specs.any (matchesOrdinalDay d)

/-- The weekday-name filter of `_is_time_in_window`: all `WEEKDAY_MAP` names
mapping to the current weekday number. -/
def weekdayNames (w : Nat) : List String :=
  (WEEKDAY_MAP.filter (fun p => p.2 = w)).map (fun p => p.1)

/-- The pure time-of-day range test of `_is_time_in_window` (midnight
crossing when `end_time ≤ start_time`). -/
def timeInRange (t : Nat) (w : MaintenanceWindow) : Bool :=
  if w.end_time ≤ w.start_time then
    w.start_time ≤ t || t ≤ w.end_time
  else
    w.start_time ≤ t && t ≤ w.end_time

/-- `MaintenanceWindowChecker._is_time_in_window`. -/
def isTimeInWindow (checkTime : DateTime) (w : MaintenanceWindow) : Bool :=
  let currentTime := checkTime.sec
  let currentWeekday := checkTime.date.pyWeekday
  if !timeInRange currentTime w then false
  else if (match w.weekdays with
           | some wd => wd ≠ [] && !((weekdayNames currentWeekday).any (fun n => wd.contains n))
           | none => false) then false
  else
    match w.ordinal_days with
    | some ods =>
      if ods = [] then true
      else if w.end_time ≤ w.start_time && currentTime ≤ w.end_time then
        matchesOrdinalDays (dtPrevDay checkTime).date ods
      else
        matchesOrdinalDays checkTime.date ods
    | none => true

/-- `is_in_maintenance_window` for a cluster whose configuration is present:
true iff some configured window contains the time. -/
def isInMaintenanceWindow (cfg : ClusterMaintenanceConfig) (t : DateTime) : Bool :=
  cfg.windows.any (isTimeInWindow t)

/-- `_get_window_start_on_date`: the window's start datetime on `d`, when
that instant satisfies the window's constraints. -/
def getWindowStartOnDate (d : Date) (w : MaintenanceWindow) : Option DateTime :=
  let checkDatetime : DateTime := ⟨d, w.start_time⟩
  if isTimeInWindow checkDatetime w then some checkDatetime else none

/-- The inner `for window in config.windows` of `get_next_maintenance_window`:
first window (in list order) whose start on this date is after `fromT`. -/
def findWindowStartOnDate (windows : List MaintenanceWindow) (d : Date)
    (fromT : DateTime) : Option DateTime :=
  windows.findSome? fun w =>
    match getWindowStartOnDate d w with
    | some ws => if dtLt fromT ws then some ws else none
    | none => none

/-- The `while current_time <= search_end` day loop of
`get_next_maintenance_window` (fuel-bounded; 36 iterations suffice for the
35-day horizon since the cursor advances one day per iteration). -/
def nextWindowSearch (windows : List MaintenanceWindow) (fromT : DateTime) :
    Nat → DateTime → Option DateTime
  | 0, _ => none
  | fuel + 1, current =>
    if dtLe current (dtAddDays fromT 35) then
      match findWindowStartOnDate windows current.date fromT with
      | some ws => some ws
      | none => nextWindowSearch windows fromT fuel (dtAddDays current 1)
    else none

/-- `get_next_maintenance_window` for a present configuration. -/
def getNextMaintenanceWindow (cfg : ClusterMaintenanceConfig) (fromT : DateTime) :
    Option DateTime :=
  if cfg.windows = [] then none
  else nextWindowSearch cfg.windows fromT 36 fromT

/-- `should_wait_for_maintenance_window` for a cluster whose configuration is
present, returning the decision and the head of the reason message. -/
def shouldWaitForMaintenanceWindow (cfg : ClusterMaintenanceConfig)
    (currentTime : DateTime) : Bool × String :=
  if cfg.windows = [] then
    (false, "No maintenance windows configured")
  else if isInMaintenanceWindow cfg currentTime then
    (false, "Proceeding with restart")
  else
    match getNextMaintenanceWindow cfg currentTime with
    | some nextStart =>
      if dtDiffSeconds nextStart currentTime ≤ (cfg.min_window_duration : Int) * 60 then
        (true, "Waiting for upcoming maintenance window")
      else
        (true, "Waiting for next maintenance window")
    | none =>
      (true, "Waiting indefinitely")

end RR

namespace RR

/-! ## Cluster model and effect activities (`rr/models.py`, `rr/activities.py`) -/

/-- `CrateDBCluster` (the fields the embedded activities read). -/
structure CrateDBCluster where
  name : String
  namespace_ : String
  has_prestop_hook : Bool
  has_dc_util : Bool
  dc_util_timeout : Nat
  min_availability : String
  pods : List String
deriving DecidableEq

/-- `HealthCheckResult` (the fields the claims are about). -/
structure HealthCheckResult where
  cluster_name : String
  health_status : String
  is_healthy : Bool
deriving DecidableEq

/-- Outcome of reading the custom resource for a health check: either the
symbol extracted by `_extract_health_status` (with its `"UNKNOWN"` default),
or a Kubernetes `ApiException`. -/
inductive HealthRead where
  | ok (health : String)
  | apiError (msg : String)
deriving DecidableEq

/-- `CrateDBActivities.check_cluster_health`: dry runs return a synthetic
GREEN; otherwise only an observed `"GREEN"` returns, every other symbol or a
read error raises (so Temporal's retry policy drives the polling loop). -/
def check_cluster_health (clusterName : String) (dryRun : Bool)
    (read : HealthRead) : Except String HealthCheckResult :=
  if dryRun then
    .ok ⟨clusterName, "GREEN", true⟩
  else
    match read with
    | .apiError m =>
      .error ("API error checking health of cluster " ++ clusterName ++ ": " ++ m)
    | .ok health =>
      if health = "GREEN" then
        .ok ⟨clusterName, health, true⟩
      else
        .error ("Cluster " ++ clusterName ++ " health is " ++ health ++ ", expected GREEN")

/-- The Kubernetes pod-delete call issued by `delete_pod`. -/
structure DeleteCall where
  gracePeriodSeconds : Nat
deriving DecidableEq

/-- `CrateDBActivities.delete_pod`: dry runs issue no call (`none`); real
runs first require the pre-delete health check to return, then delete with
grace `dc_util_timeout + 60` when `has_dc_util`, else `30`. -/
def delete_pod (cluster : CrateDBCluster) (podName : String) (dryRun : Bool)
    (healthRead : HealthRead) : Except String (Option DeleteCall) :=
  if dryRun then .ok none
  else
    match check_cluster_health cluster.name false healthRead with
    | .error e => .error ("Failed to delete pod " ++ podName ++ ": " ++ e)
    | .ok _ =>
      let gracePeriod := if cluster.has_dc_util then cluster.dc_util_timeout + 60 else 30
      .ok (some ⟨gracePeriod⟩)

/-- One command executed inside the target pod by the manual decommission
strategy: the SQL statement POSTed to `https://127.0.0.1:4200/_sql` and
whether the curl is wrapped in the `while kill -0 1` PID-1 busy-wait. -/
structure ExecCmd where
  stmt : String
  pidWait : Bool
deriving DecidableEq

/-- The `sql_commands` list of `_execute_manual_decommission` (five
statements, built from the cluster's drain timeout, minimum availability and
the pod-name ordinal suffix `pod_name.rsplit("-", 1)[-1]`). -/
def manualDecommissionSql (cluster : CrateDBCluster) (podName : String) : List String :=
  let podSuffix := pyRsplitLastDash podName
  let timeoutValue := toString cluster.dc_util_timeout ++ "s"
  ["set global transient \x22cluster.routing.allocation.enable\x22 = \x22new_primaries\x22",
   "set global transient \x22cluster.graceful_stop.timeout\x22 = \x22" ++ timeoutValue ++ "\x22",
   "set global transient \x22cluster.graceful_stop.force\x22 = true",
   "set global transient \x22cluster.graceful_stop.min_availability\x22 = \x22"
     ++ cluster.min_availability ++ "\x22",
   "alter cluster decommission $$data-hot-" ++ podSuffix ++ "$$"]

/-- The command sequence `_execute_manual_decommission` runs in the pod: the
`for idx, sql_cmd in enumerate(sql_commands, 1)` loop, wrapping only
`idx == 5` in the PID-1 wait. -/
def manualDecommissionCmds (cluster : CrateDBCluster) (podName : String) : List ExecCmd :=
  (manualDecommissionSql cluster podName).enum.map
    (fun p => ⟨p.2, p.1 + 1 = 5⟩)

/-- `_execute_decommission_strategy`: the in-pod work selected purely from
`cluster.has_dc_util` — nothing for Kubernetes-managed clusters (the preStop
hook does the decommission on deletion), the manual protocol otherwise. -/
def executeDecommissionStrategy (cluster : CrateDBCluster) (podName : String) :
    List ExecCmd :=
  if cluster.has_dc_util then []
  else manualDecommissionCmds cluster podName

/-- `DecommissionResult` (the fields the claims are about). -/
structure DecommissionResult where
  pod_name : String
  strategy_used : String
  success : Bool
  error : Option String
deriving DecidableEq

/-- External outcomes a real `decommission_pod` run can observe: the
pre-decommission CRD health read and, for the manual strategy, the result of
each in-pod exec (indexed 1-5; `none` = success, `some msg` = raised). -/
structure DecommEnv where
  healthRead : HealthRead
  execError : Nat → Option String

/-- Run the strategy's commands in order, raising at the first failing
in-pod exec (as `_execute_command_in_pod` does). -/
def runExecCmds (env : DecommEnv) : List (Nat × ExecCmd) → Except String Unit
  | [] => .ok ()
  | (idx, _) :: rest =>
    match env.execError idx with
    | some msg => .error msg
    | none => runExecCmds env rest

/-- The body of `decommission_pod`'s `try:` block — the health gate, then the
selected strategy's in-pod commands. -/
def decommissionInner (cluster : CrateDBCluster) (podName : String)
    (env : DecommEnv) : Except String Unit :=
  match check_cluster_health cluster.name false env.healthRead with
  | .error e => .error e
  | .ok _ =>
    runExecCmds env ((executeDecommissionStrategy cluster podName).enum.map
      (fun p => (p.1 + 1, p.2)))

/-- `CrateDBActivities.decommission_pod`: a total function — the
`except Exception` turns every failure of the body into a returned
`DecommissionResult` with `success=False` and `strategy_used="unknown"`. -/
def decommission_pod (cluster : CrateDBCluster) (podName : String)
    (dryRun : Bool) (env : DecommEnv) : DecommissionResult :=
  if dryRun then ⟨podName, "dry_run", true, none⟩
  else
    match decommissionInner cluster podName env with
    | .ok _ =>
      ⟨podName, if cluster.has_dc_util then "kubernetes_managed" else "manual", true, none⟩
    | .error e =>
      ⟨podName, "unknown", false,
       some ("Decommission failed for pod " ++ podName ++ ": " ++ e)⟩

/-! ## StatefulSet discovery (`_find_statefulset`) -/

/-- Outcome of `read_namespaced_stateful_set(name)`: found, 404, or another
`ApiException` (which the loop re-raises). -/
inductive StsRead where
  | found
  | notFound
  | apiError (msg : String)
deriving DecidableEq

/-- Whether a read found the StatefulSet. -/
def StsRead.isFound : StsRead → Bool
  | .found => true
  | _ => false

/-- Whether a read raised a non-404 `ApiException`. -/
def StsRead.isApiError : StsRead → Bool
  | .apiError _ => true
  | _ => false

/-- The `possible_patterns` list of `_find_statefulset`, in source order. -/
def possiblePatterns (crdName clusterName : String) : List String :=
  ["crate-data-hot-" ++ crdName,
   "crate-" ++ crdName,
   crdName,
   "crate-" ++ clusterName,
   "crate-data-hot-" ++ clusterName]

/-- The pattern loop of `_find_statefulset`: return the first name that
exists, skip 404s, re-raise other API errors, `none` when all miss. -/
def findStatefulsetLoop (read : String → StsRead) :
    List String → Except String (Option String)
  | [] => .ok none
  | p :: rest =>
    match read p with
    | .found => .ok (some p)
    | .notFound => findStatefulsetLoop read rest
    | .apiError m => .error m

/-- `CrateDBActivities._find_statefulset`. -/
def find_statefulset (read : String → StsRead) (crdName clusterName : String) :
    Except String (Option String) :=
  findStatefulsetLoop read (possiblePatterns crdName clusterName)

end RR

namespace RR

/-! ## Pod-Restart state machine (`PodRestartStateMachine.run`) -/

/-- The states of `PodRestartStateMachine.run`, in source order. -/
inductive PodState where
  | healthCheck
  | decommission
  | delete
  | waitReady
  | resetRouting
  | complete
deriving DecidableEq

/-- `PodRestartResult` (the fields the claims are about). -/
structure PodRestartResult where
  pod_name : String
  success : Bool
  error : Option String
deriving DecidableEq

/-- Outcomes of the awaits inside one `PodRestartStateMachine.run`
execution: the health-gate child workflow, the `decommission_pod` activity's
returned result, the `delete_pod` and `wait_for_pod_ready` activities, and
the `reset_cluster_routing_allocation` activity. -/
structure PodRestartEnv where
  healthGate : Except String Unit
  decommission : DecommissionResult
  deletePod : Except String Unit
  waitReady : Except String Unit
  resetRouting : Except String Unit

/-- `PodRestartStateMachine.run`: the strict state sequence
HEALTH_CHECK → DECOMMISSION → DELETE → WAIT_READY → RESET_ROUTING →
COMPLETE, with its `try/except` turning any raised error into a
`success=False` result — except the RESET_ROUTING failure, which is caught
locally and never fails the restart, and the RESET_ROUTING state itself,
which runs only when `not cluster.has_dc_util`.  Returns the result and the
list of states entered. -/
def podRestartRun (cluster : CrateDBCluster) (podName : String)
    (env : PodRestartEnv) : PodRestartResult × List PodState :=
  let fail := fun (trace : List PodState) (e : String) =>
    (⟨podName, false,
      some ("Pod restart state machine failed for " ++ podName ++ ": " ++ e)⟩, trace)
  match env.healthGate with
  | .error e => fail [.healthCheck] e
  | .ok _ =>
    if env.decommission.success = false then
      fail [.healthCheck, .decommission]
        ("Decommission failed: " ++ (env.decommission.error.getD ""))
    else
      match env.deletePod with
      | .error e => fail [.healthCheck, .decommission, .delete] e
      | .ok _ =>
        match env.waitReady with
        | .error e => fail [.healthCheck, .decommission, .delete, .waitReady] e
        | .ok _ =>
          if cluster.has_dc_util then
            -- RESET_ROUTING skipped (Kubernetes-managed decommission)
            (⟨podName, true, none⟩,
             [.healthCheck, .decommission, .delete, .waitReady, .complete])
          else
            -- RESET_ROUTING runs; its failure is logged and swallowed
            match env.resetRouting with
            | _ =>
              (⟨podName, true, none⟩,
               [.healthCheck, .decommission, .delete, .waitReady, .resetRouting, .complete])

/-! ## Cluster-Restart state machine (`ClusterRestartStateMachine.run`)

The POD_RESTARTS loop onward is modelled as a small-step interpreter whose
suspension points are exactly the workflow's awaits; operator signals are
delivered between steps, as Temporal delivers them between workflow tasks.
The scenario claims fix the earlier states (maintenance gate, validation,
initial health) and the activity outcomes, so the interpreter takes a
per-pod child-restart outcome and treats the health gates as passing. -/

/-- `ClusterRestartRecord`: the dict returned by
`ClusterRestartStateMachine.run` (the claimed fields). -/
structure ClusterRestartRecord where
  success : Bool
  restarted_pods : List String
  skipped_pods : List String
  total_pods : Nat
  cancelled : Bool
  error : Option String
deriving DecidableEq

/-- Control points of the POD_RESTARTS loop. -/
inductive ClusterPc where
  /-- About to run the loop body for pod index `i` (cancel and pause checks
  come first, as at `state_machines.py:585-602`). -/
  | podLoop (i : Nat)
  /-- Blocked in the pause `wait_condition` at pod index `i`. -/
  | pauseWait (i : Nat)
  /-- Past the checks of iteration `i`: set `current_pod`, run the child
  restart, then the inter-pod gate. -/
  | podBody (i : Nat)
  /-- FINAL_HEALTH then COMPLETE. -/
  | finalHealth
  /-- Returned. -/
  | finished (record : ClusterRestartRecord)
deriving DecidableEq

/-- The workflow instance's state: signal latches, the query-visible fields,
and the loop's local lists. -/
structure ClusterWfState where
  pauseSignal : Bool
  cancelSignal : Bool
  currentPod : String
  podsCompleted : List String
  skippedPodsQ : List String
  restartedPods : List String
  skippedPods : List String
  pc : ClusterPc
deriving DecidableEq

/-- The state at entry to POD_RESTARTS (signal handlers initialise the
latches to false and `current_pod` to the empty string). -/
def initClusterWfState : ClusterWfState :=
  ⟨false, false, "", [], [], [], [], .podLoop 0⟩

/-- Signals of `ClusterRestartStateMachine`. -/
inductive ClusterSignal where
  | pauseRestart
  | resumeRestart
  | cancelRestart
deriving DecidableEq

/-- Signal delivery: `pause_restart` / `resume_restart` toggle the pause
latch, `cancel_restart` latches cancellation. -/
def deliverSignal (sig : ClusterSignal) (s : ClusterWfState) : ClusterWfState :=
  match sig with
  | .pauseRestart => { s with pauseSignal := true }
  | .resumeRestart => { s with pauseSignal := false }
  | .cancelRestart => { s with cancelSignal := true }

/-- The `get_status` query. -/
structure StatusView where
  current_pod : String
  pods_completed : List String
  skipped_pods : List String
  paused : Bool
  cancelled : Bool
deriving DecidableEq

/-- `ClusterRestartStateMachine.get_status`. -/
def get_status (s : ClusterWfState) : StatusView :=
  ⟨s.currentPod, s.podsCompleted, s.skippedPodsQ, s.pauseSignal, s.cancelSignal⟩

/-- The COMPLETE state's record (`state_machines.py:721-731`):
`success = True if not self.cancel_signal else False`. -/
def completeRecord (pods : List String) (s : ClusterWfState) : ClusterRestartRecord :=
  ⟨!s.cancelSignal, s.restartedPods, s.skippedPods, pods.length, s.cancelSignal, none⟩

/-- One step of `ClusterRestartStateMachine.run` from the POD_RESTARTS state
on, for a run with `only_on_suspended_nodes` off and passing health gates.
`childOk p` is whether pod `p`'s child `PodRestartStateMachine` reports
`success`; a failed child raises and the `except` branch returns the partial
record with `success=False`. -/
def clusterStep (pods : List String) (childOk : String → Bool)
    (s : ClusterWfState) : ClusterWfState :=
  match s.pc with
  | .podLoop i =>
    match pods[i]? with
    | none => { s with pc := .finalHealth }
    | some _ =>
      if s.cancelSignal then
        -- cancel check: exit the loop
        { s with pc := .finalHealth }
      else if s.pauseSignal then
        -- pause check: durably wait until resumed or cancelled
        { s with pc := .pauseWait i }
      else
        { s with pc := .podBody i }
  | .pauseWait i =>
    if s.cancelSignal then
      -- cancelled during pause: exit the loop
      { s with pc := .finalHealth }
    else if s.pauseSignal then
      s
    else
      -- resumed: continue this iteration's body
      { s with pc := .podBody i }
  | .podBody i =>
    let p := pods.getD i ""
    let s := { s with currentPod := p }
    if childOk p then
      { s with restartedPods := s.restartedPods ++ [p],
               podsCompleted := s.podsCompleted ++ [p],
               pc := .podLoop (i + 1) }
    else
      { s with pc := (ClusterPc.finished
          ⟨false, s.restartedPods, s.skippedPods, pods.length, s.cancelSignal,
           some "Pod restart failed"⟩) }
  | .finalHealth =>
    { s with pc := .finished (completeRecord pods s) }
  | .finished _ => s

/-- Iterate `clusterStep`. -/
def clusterStepN (pods : List String) (childOk : String → Bool) (n : Nat)
    (s : ClusterWfState) : ClusterWfState :=
  Nat.rec s (fun _ acc => clusterStep pods childOk acc) n

end RR

namespace RR

/-! ## Definitions written from the claims' words (for refinement claims)

These two definitions deliberately follow the claim text, not the source;
they exist only to be compared against the embedded source functions. -/

/-- Modelled from the claim (C2): should-wait is said to hold iff the time
is not inside any window and the next window start is absent or at least
`min_window_duration` minutes away. -/
def claimShouldWait (cfg : ClusterMaintenanceConfig) (t : DateTime) : Bool :=
  !(isInMaintenanceWindow cfg t) &&
  (match getNextMaintenanceWindow cfg t with
   | none => true
   | some ws => decide ((cfg.min_window_duration : Int) * 60 ≤ dtDiffSeconds ws t))

/-- Modelled from the claim (C4): the StatefulSet name patterns are said to
be tried in the order `"<cr>"`, `"<prefix>-<cr>"`, `"<prefix>-hot-<cr>"`. -/
def claimPatternOrder (pfx crdName : String) : List String :=
  [crdName, pfx ++ "-" ++ crdName, pfx ++ "-hot-" ++ crdName]

/-- Modelled from the claim (C4): bind to the first claimed pattern that
exists. -/
def claimFindStatefulset (read : String → StsRead) (pfx crdName : String) :
    Option String :=
  (claimPatternOrder pfx crdName).find? (fun p => (read p).isFound)

/-! ## Concrete fixtures used by counterexamples and witnesses -/

/-- One window `18:00-19:00` with no day constraints. -/
def cfgC2 : ClusterMaintenanceConfig := ⟨[⟨64800, 68400, none, none⟩], 30⟩

/-- 2024-01-01 17:45 UTC: outside `cfgC2`'s window, 15 minutes before it. -/
def tC2 : DateTime := ⟨⟨2024, 1, 1⟩, 63900⟩

/-- A read under which both the bare CRD name and the `crate-data-hot-`
prefixed name exist as StatefulSets. -/
def readC4 : String → StsRead := fun s =>
  if s = "c" || s = "crate-data-hot-c" then .found else .notFound

/-- The claimed S6 scenario's pod list. -/
def podsC5 : List String := ["p0", "p1"]

/-- In the S6 scenario every child pod restart that runs succeeds. -/
def childOkC5 : String → Bool := fun _ => true

/-- S6 execution, first half: run pod `p0`'s iteration (two steps:
checks, then body), deliver `pause_restart`, and take one more step — the
workflow blocks in the pause `wait_condition` before restarting `p1`. -/
def pausedStateC5 : ClusterWfState :=
  clusterStepN podsC5 childOkC5 1
    (deliverSignal .pauseRestart (clusterStepN podsC5 childOkC5 2 initClusterWfState))

/-- S6 execution, second half: deliver `cancel_restart` during the pause and
run to completion (wake from the wait, exit the loop, FINAL_HEALTH,
COMPLETE). -/
def finalStateC5 : ClusterWfState :=
  clusterStepN podsC5 childOkC5 2 (deliverSignal .cancelRestart pausedStateC5)

/-- A Kubernetes-managed cluster (`has_dc_util`) with a 600 s drain budget,
as in scenario S1. -/
def clusterK8s : CrateDBCluster := ⟨"c1", "test-ns", true, true, 600, "PRIMARIES", ["c1-0"]⟩

/-- A manual-decommission cluster (no `dc_util`), as in scenario S2. -/
def clusterManual : CrateDBCluster := ⟨"c2", "test-ns", false, false, 720, "PRIMARIES", ["c2-0"]⟩

/-- Pod-restart await outcomes where everything up to WAIT_READY succeeds
and the routing reset raises. -/
def envC7 : PodRestartEnv :=
  ⟨.ok (), ⟨"c2-0", "manual", true, none⟩, .ok (), .ok (), .error "reset failed"⟩

/-- Decommission outcomes whose pre-decommission health read observes
YELLOW (so the health gate inside the activity raises). -/
def envC9 : DecommEnv := ⟨.ok "YELLOW", fun _ => none⟩

/-- The B3 window `23:00-01:00` restricted to `ordinal_days=["last fri"]`. -/
def windowC8 : MaintenanceWindow := ⟨82800, 3600, none, some ["last fri"]⟩

/-- A `23:00-01:00` window restricted to `weekdays=["mon"]`. -/
def windowC10 : MaintenanceWindow := ⟨82800, 3600, some ["mon"], none⟩

end RR

namespace RR

/-! ## C1 — health check returns iff GREEN -/

/-- C1: with `dry_run=False`, `check_cluster_health` returns a
`HealthCheckResult` (then `is_healthy=True`, `health_status="GREEN"`) iff
the symbol read from the custom resource is exactly `GREEN`; every other
observed symbol or read error raises, so no returned observation has
`is_healthy=True` with a non-GREEN symbol. -/
theorem check_cluster_health_green_iff (clusterName : String) (read : HealthRead) :
    ((∃ r, check_cluster_health clusterName false read = .ok r) ↔
      read = .ok "GREEN") ∧
    (∀ r, check_cluster_health clusterName false read = .ok r →
      r.is_healthy = true ∧ r.health_status = "GREEN") := by
  cases read with
  | apiError m =>
    simp [check_cluster_health]
  | ok h =>
    by_cases hg : h = "GREEN"
    · subst hg
      refine ⟨⟨fun _ => rfl, fun _ => ⟨⟨clusterName, "GREEN", true⟩, rfl⟩⟩, ?_⟩
      intro r hr
      simp [check_cluster_health] at hr
      subst hr
      exact ⟨rfl, rfl⟩
    · simp [check_cluster_health, hg]

/-- C1 witness: a GREEN read at a concrete cluster satisfies the
hypotheses, and the returned observation is healthy with symbol GREEN. -/
theorem check_cluster_health_green_iff_witness :
    HealthCheckResult.is_healthy ⟨"c1", "GREEN", true⟩ = true ∧
    HealthCheckResult.health_status ⟨"c1", "GREEN", true⟩ = "GREEN" :=
  (check_cluster_health_green_iff "c1" (.ok "GREEN")).2 ⟨"c1", "GREEN", true⟩ rfl

/-! ## C3 — decommission strategy selection and the manual SQL protocol -/

/-- C3: strategy is selected purely from `cluster.has_dc_util`: when true
the activity performs no pre-delete work; when false it runs exactly five
SQL statements in the claimed order, with the fifth (`alter cluster
decommission $$data-hot-<suffix>$$`, suffix = pod name after the final `-`)
wrapped in the PID-1 busy-wait. -/
theorem decommission_strategy_sql (cluster : CrateDBCluster) (podName : String) :
    (cluster.has_dc_util = true → executeDecommissionStrategy cluster podName = []) ∧
    (cluster.has_dc_util = false →
      executeDecommissionStrategy cluster podName =
        [⟨"set global transient \x22cluster.routing.allocation.enable\x22 = \x22new_primaries\x22", false⟩,
         ⟨"set global transient \x22cluster.graceful_stop.timeout\x22 = \x22"
            ++ (toString cluster.dc_util_timeout ++ "s") ++ "\x22", false⟩,
         ⟨"set global transient \x22cluster.graceful_stop.force\x22 = true", false⟩,
         ⟨"set global transient \x22cluster.graceful_stop.min_availability\x22 = \x22"
            ++ cluster.min_availability ++ "\x22", false⟩,
         ⟨"alter cluster decommission $$data-hot-" ++ pyRsplitLastDash podName ++ "$$",
          true⟩]) := by
  constructor
  · intro h
    unfold executeDecommissionStrategy
    rw [h]
    rfl
  · intro h
    unfold executeDecommissionStrategy
    rw [h]
    rfl

/-- C3 witness: scenario S2's cluster (`dc_util_timeout=720`,
`min_availability=PRIMARIES`, no `dc_util`) and pod `c2-0` yield the exact
five statements of the spec with suffix `0`, PID-wait only on the fifth. -/
theorem decommission_strategy_sql_witness :
    executeDecommissionStrategy clusterManual "c2-0" =
      [⟨"set global transient \x22cluster.routing.allocation.enable\x22 = \x22new_primaries\x22", false⟩,
       ⟨"set global transient \x22cluster.graceful_stop.timeout\x22 = \x22720s\x22", false⟩,
       ⟨"set global transient \x22cluster.graceful_stop.force\x22 = true", false⟩,
       ⟨"set global transient \x22cluster.graceful_stop.min_availability\x22 = \x22PRIMARIES\x22", false⟩,
       ⟨"alter cluster decommission $$data-hot-0$$", true⟩] :=
  ((decommission_strategy_sql clusterManual "c2-0").2 rfl).trans (by decide)

/-! ## C6 — pod delete grace period -/

/-- C6: whenever `delete_pod` with `dry_run=False` issues the Kubernetes
delete call, the grace period passed is `dc_util_timeout + 60` when
`cluster.has_dc_util` and `30` otherwise. -/
theorem delete_pod_grace_period (cluster : CrateDBCluster) (podName : String)
    (read : HealthRead) (call : DeleteCall)
    (hcall : delete_pod cluster podName false read = .ok (some call)) :
    call.gracePeriodSeconds =
      if cluster.has_dc_util then cluster.dc_util_timeout + 60 else 30 := by
  simp only [delete_pod, Bool.false_eq_true, if_false] at hcall
  cases hc : check_cluster_health cluster.name false read with
  | error e => rw [hc] at hcall; exact absurd hcall (by simp)
  | ok r =>
    rw [hc] at hcall
    simp only [Except.ok.injEq, Option.some.injEq] at hcall
    rw [← hcall]

/-- C6 witness: scenario S1's Kubernetes-managed cluster with
`dc_util_timeout=600` issues the delete with grace period 660. -/
theorem delete_pod_grace_period_witness :
    DeleteCall.gracePeriodSeconds ⟨660⟩ =
      if clusterK8s.has_dc_util then clusterK8s.dc_util_timeout + 60 else 30 :=
  delete_pod_grace_period clusterK8s "c1-0" (.ok "GREEN") ⟨660⟩ rfl

end RR

namespace RR

/-! ## C4 — StatefulSet pattern order -/

/-- Helper: with no non-404 API errors, the pattern loop returns the first
name the read finds. -/
theorem findStatefulsetLoop_first_found (read : String → StsRead) (ps : List String)
    (hok : ∀ p ∈ ps, (read p).isApiError = false) :
    findStatefulsetLoop read ps = .ok (ps.find? (fun p => (read p).isFound)) := by
  induction ps with
  | nil => rfl
  | cons p rest ih =>
    have hp := hok p (List.mem_cons_self p rest)
    have hrest : ∀ q ∈ rest, (read q).isApiError = false :=
      fun q hq => hok q (List.mem_cons_of_mem p hq)
    cases hr : read p with
    | found =>
      simp [findStatefulsetLoop, List.find?, hr, StsRead.isFound]
    | notFound =>
      simp [findStatefulsetLoop, List.find?, hr, StsRead.isFound, ih hrest]
    | apiError m =>
      rw [hr] at hp
      exact absurd hp (by simp [StsRead.isApiError])

/-- C4 counterexample: when both the bare CRD name `c` and
`crate-data-hot-c` exist, the code binds to `crate-data-hot-c` (its first
pattern), while the claimed order `"<cr>"`, `"<prefix>-<cr>"`,
`"<prefix>-hot-<cr>"` would bind to `c` — so the claimed pattern order is
not the code's. -/
theorem find_statefulset_order_counterexample :
    find_statefulset readC4 "c" "c" = .ok (some "crate-data-hot-c") ∧
    claimFindStatefulset readC4 "crate" "c" = some "c" ∧
    (("crate-data-hot-c" : String) == "c") = false := by
  refine ⟨rfl, rfl, by decide⟩

/-- C4 (amended): `_find_statefulset` tries the name patterns
`crate-data-hot-<cr>`, `crate-<cr>`, `<cr>`, `crate-<cluster>`,
`crate-data-hot-<cluster>` in that order and binds to the first name that
exists (absent non-404 API errors, which re-raise). -/
theorem find_statefulset_first_found (read : String → StsRead)
    (crdName clusterName : String)
    (hok : ∀ p ∈ possiblePatterns crdName clusterName, (read p).isApiError = false) :
    find_statefulset read crdName clusterName =
      .ok ((possiblePatterns crdName clusterName).find? (fun p => (read p).isFound)) :=
  findStatefulsetLoop_first_found read (possiblePatterns crdName clusterName) hok

/-- C4 witness: the amended order at the counterexample's read — the first
existing pattern is `crate-data-hot-c`. -/
theorem find_statefulset_first_found_witness :
    find_statefulset readC4 "c" "c" =
      .ok ((possiblePatterns "c" "c").find? (fun p => (readC4 p).isFound)) :=
  find_statefulset_first_found readC4 "c" "c" (by decide)

/-! ## C7 — RESET_ROUTING runs iff manual decommission, and never fails the restart -/

/-- C7: in `PodRestartStateMachine.run` with all states through WAIT_READY
succeeding, the RESET_ROUTING state is entered iff `cluster.has_dc_util` is
false, and the result has `success=True` whatever the
`reset_cluster_routing_allocation` activity does — its failure is caught. -/
theorem pod_restart_reset_routing (cluster : CrateDBCluster) (podName : String)
    (env : PodRestartEnv)
    (hh : env.healthGate = .ok ()) (hd : env.decommission.success = true)
    (hdel : env.deletePod = .ok ()) (hw : env.waitReady = .ok ()) :
    ((PodState.resetRouting ∈ (podRestartRun cluster podName env).2) ↔
      cluster.has_dc_util = false) ∧
    (podRestartRun cluster podName env).1.success = true := by
  unfold podRestartRun
  rw [hh, hdel, hw, hd]
  cases hdc : cluster.has_dc_util <;> simp

/-- C7 witness: scenario S2's manual cluster with a failing routing reset
still returns `success=True`, and RESET_ROUTING was entered. -/
theorem pod_restart_reset_routing_witness :
    ((PodState.resetRouting ∈ (podRestartRun clusterManual "c2-0" envC7).2) ↔
      clusterManual.has_dc_util = false) ∧
    (podRestartRun clusterManual "c2-0" envC7).1.success = true :=
  pod_restart_reset_routing clusterManual "c2-0" envC7 rfl rfl rfl rfl

/-! ## C9 — decommission_pod never raises -/

/-- C9: `decommission_pod` is total at the activity boundary: the result's
`success` is true exactly when the guarded body (health gate plus strategy
commands) completed, and any body failure — including a pre-decommission
health observation other than GREEN — is returned as a
`DecommissionResult` with `success=False`, `strategy_used="unknown"` and
the error string set, never raised. -/
theorem decommission_pod_total (cluster : CrateDBCluster) (podName : String)
    (env : DecommEnv) :
    ((decommission_pod cluster podName false env).success = true ↔
      decommissionInner cluster podName env = .ok ()) ∧
    (∀ e, decommissionInner cluster podName env = .error e →
      decommission_pod cluster podName false env =
        ⟨podName, "unknown", false,
         some ("Decommission failed for pod " ++ podName ++ ": " ++ e)⟩) ∧
    (env.healthRead ≠ .ok "GREEN" →
      (decommission_pod cluster podName false env).success = false ∧
      (decommission_pod cluster podName false env).strategy_used = "unknown" ∧
      (decommission_pod cluster podName false env).error ≠ none) := by
  refine ⟨?_, ?_, ?_⟩
  · cases hu : decommissionInner cluster podName env with
    | ok v => cases v; simp [decommission_pod, hu]
    | error e => simp [decommission_pod, hu]
  · intro e he
    simp [decommission_pod, he]
  · intro hread
    have herr : ∃ e, decommissionInner cluster podName env = .error e := by
      unfold decommissionInner
      cases hr : env.healthRead with
      | apiError m => simp [check_cluster_health]
      | ok h =>
        have hg : ¬(h = "GREEN") := fun hh => hread (by rw [hr, hh])
        simp [check_cluster_health, hg]
    obtain ⟨e, he⟩ := herr
    simp [decommission_pod, he]

/-- C9 witness: a YELLOW pre-decommission read makes the activity return a
failed `DecommissionResult` (success false, strategy `unknown`, error set)
instead of raising. -/
theorem decommission_pod_total_witness :
    (decommission_pod clusterManual "c2-0" false envC9).success = false ∧
    (decommission_pod clusterManual "c2-0" false envC9).strategy_used = "unknown" ∧
    (decommission_pod clusterManual "c2-0" false envC9).error ≠ none :=
  (decommission_pod_total clusterManual "c2-0" envC9).2.2 (by decide)

end RR

namespace RR

/-! ## C5 — pause then cancel, mid-run -/

/-- C5 counterexample: in the S6 run (pause latched after `p0` completes,
before `p1` begins), the workflow does block in the pause wait before
restarting `p1` with `pods_completed=["p0"]` and `paused=true`, but
`get_status()` reports `current_pod="p0"` — the loop sets `current_pod`
only after the pause check — so the claimed `current_pod="p1"` is false. -/
theorem cluster_pause_status_counterexample :
    pausedStateC5.pc = ClusterPc.pauseWait 1 ∧
    get_status pausedStateC5 = ⟨"p0", ["p0"], [], true, false⟩ ∧
    ((get_status pausedStateC5).current_pod == "p1") = false := by
  refine ⟨rfl, rfl, by decide⟩

/-- C5 (amended): in the S6 run the workflow halts in the pause wait before
restarting `p1`, with `get_status()` = `{current_pod:"p0",
pods_completed:["p0"], paused:true}` (`current_pod` still names the last
pod whose iteration began); after `cancel_restart` is latched the loop
exits without starting any further pod restart and the returned record has
`success=false`, `cancelled=true`, `restarted_pods=["p0"]`. -/
theorem cluster_pause_cancel_scenario :
    pausedStateC5.pc = ClusterPc.pauseWait 1 ∧
    pausedStateC5.restartedPods = ["p0"] ∧
    get_status pausedStateC5 = ⟨"p0", ["p0"], [], true, false⟩ ∧
    finalStateC5.pc = ClusterPc.finished ⟨false, ["p0"], [], 2, true, none⟩ := by
  refine ⟨rfl, rfl, rfl, rfl⟩

/-! ## C8 — midnight-crossing windows with ordinal-day constraints -/

/-- C8: for a midnight-crossing window (`end_time ≤ start_time`) with
ordinal-day constraints (and no weekday constraint), membership of a time
in the early-morning part (`time ≤ end_time`) is decided by whether the
previous calendar day — the window's starting date — matches the ordinal
specifier; and the B3 window `23:00-01:00` with `ordinal_days=["last fri"]`
admits 2024-01-26 23:30 and 2024-01-27 00:30 UTC and rejects
2024-01-19 23:30 UTC. -/
theorem midnight_ordinal_previous_day (w : MaintenanceWindow) (t : DateTime)
    (ods : List String)
    (hcross : w.end_time ≤ w.start_time)
    (hods : w.ordinal_days = some ods) (hne : ods ≠ [])
    (hwd : w.weekdays = none)
    (hearly : t.sec ≤ w.end_time) :
    isTimeInWindow t w = matchesOrdinalDays (dtPrevDay t).date ods ∧
    isTimeInWindow ⟨⟨2024, 1, 26⟩, 84600⟩ windowC8 = true ∧
    isTimeInWindow ⟨⟨2024, 1, 27⟩, 1800⟩ windowC8 = true ∧
    isTimeInWindow ⟨⟨2024, 1, 19⟩, 84600⟩ windowC8 = false := by
  refine ⟨?_, by decide, by decide, by decide⟩
  unfold isTimeInWindow timeInRange
  simp [hods, hwd, hne, hcross, hearly]

/-- C8 witness: the general early-morning equation instantiated at
2024-01-27 00:30 UTC on the B3 window, where both sides are true. -/
theorem midnight_ordinal_previous_day_witness :
    (isTimeInWindow ⟨⟨2024, 1, 27⟩, 1800⟩ windowC8 =
      matchesOrdinalDays (dtPrevDay ⟨⟨2024, 1, 27⟩, 1800⟩).date ["last fri"]) ∧
    isTimeInWindow ⟨⟨2024, 1, 26⟩, 84600⟩ windowC8 = true ∧
    isTimeInWindow ⟨⟨2024, 1, 27⟩, 1800⟩ windowC8 = true ∧
    isTimeInWindow ⟨⟨2024, 1, 19⟩, 84600⟩ windowC8 = false :=
  midnight_ordinal_previous_day windowC8 ⟨⟨2024, 1, 27⟩, 1800⟩ ["last fri"]
    (by decide) rfl (by decide) rfl (by decide)

/-! ## C10 — weekday constraints always use the queried time's own day -/

/-- C10: the weekday constraint of `_is_time_in_window` is always checked
against the queried time's own calendar day — never shifted to the window's
starting date, unlike ordinal-day constraints — so the `23:00-01:00` window
with `weekdays=["mon"]` rejects Tuesday 2024-01-02 00:30 UTC even though
that instant lies inside the occurrence that started Monday 23:00, which
admits Monday 2024-01-01 23:30 UTC. -/
theorem weekday_uses_current_day (w : MaintenanceWindow) (t : DateTime)
    (wd : List String)
    (hwd : w.weekdays = some wd) (hods : w.ordinal_days = none) :
    isTimeInWindow t w =
      (timeInRange t.sec w &&
        (decide (wd = []) ||
         (weekdayNames t.date.pyWeekday).any (fun n => wd.contains n))) ∧
    isTimeInWindow ⟨⟨2024, 1, 2⟩, 1800⟩ windowC10 = false ∧
    isTimeInWindow ⟨⟨2024, 1, 1⟩, 84600⟩ windowC10 = true := by
  refine ⟨?_, by decide, by decide⟩
  unfold isTimeInWindow
  simp [hwd, hods]
  cases hr : timeInRange t.sec w with
  | false => simp
  | true =>
    simp
    cases hwde : decide (wd = []) with
    | true =>
      simp at hwde
      simp [hwde]
    | false =>
      simp at hwde
      simp [hwde]
      rw [Bool.eq_iff_iff]
      simp [List.any_eq_true]

/-- C10 witness: the equation instantiated at Tuesday 2024-01-02 00:30 UTC
on the `weekdays=["mon"]` window, plus the two concrete memberships. -/
theorem weekday_uses_current_day_witness :
    (isTimeInWindow ⟨⟨2024, 1, 2⟩, 1800⟩ windowC10 =
      (timeInRange 1800 windowC10 &&
        (decide ((["mon"] : List String) = []) ||
         (weekdayNames (Date.pyWeekday ⟨2024, 1, 2⟩)).any
           (fun n => List.contains ["mon"] n)))) ∧
    isTimeInWindow ⟨⟨2024, 1, 2⟩, 1800⟩ windowC10 = false ∧
    isTimeInWindow ⟨⟨2024, 1, 1⟩, 84600⟩ windowC10 = true :=
  weekday_uses_current_day windowC10 ⟨⟨2024, 1, 2⟩, 1800⟩ ["mon"] rfl rfl

end RR

namespace RR

/-! ## C2 — the should-wait decision -/

/-- C2 counterexample: at 2024-01-01 17:45 UTC, 15 minutes before `cfgC2`'s
18:00-19:00 window with `min_window_duration = 30`, the time is outside all
windows and the next window start is less than `min_window_duration` away —
the claim's predicate is false there — yet
`should_wait_for_maintenance_window` returns true (the code waits whenever
the time is outside, whatever the distance to the next window). -/
theorem should_wait_counterexample :
    isInMaintenanceWindow cfgC2 tC2 = false ∧
    getNextMaintenanceWindow cfgC2 tC2 = some ⟨⟨2024, 1, 1⟩, 64800⟩ ∧
    dtDiffSeconds ⟨⟨2024, 1, 1⟩, 64800⟩ tC2 = 900 ∧
    claimShouldWait cfgC2 tC2 = false ∧
    (shouldWaitForMaintenanceWindow cfgC2 tC2).1 = true := by
  set_option maxRecDepth 100000 in
  refine ⟨by decide, by decide, by decide, by decide, by decide⟩

/-- C2 (amended): for a cluster with at least one configured window,
`should_wait_for_maintenance_window` returns true iff the time is not
inside any of the cluster's windows; the distance to the next window start
and `min_window_duration` affect only the reason message, never the
boolean. -/
theorem should_wait_iff_outside (cfg : ClusterMaintenanceConfig) (t : DateTime)
    (hw : cfg.windows ≠ []) :
    (shouldWaitForMaintenanceWindow cfg t).1 = !(isInMaintenanceWindow cfg t) := by
  unfold shouldWaitForMaintenanceWindow
  rw [if_neg hw]
  by_cases hin : isInMaintenanceWindow cfg t
  · simp [hin]
  · rw [if_neg hin]
    have hfalse : isInMaintenanceWindow cfg t = false := by
      cases h : isInMaintenanceWindow cfg t
      · rfl
      · exact absurd h hin
    rw [hfalse]
    cases getNextMaintenanceWindow cfg t with
    | none => rfl
    | some nextStart =>
      simp only
      split <;> rfl

/-- C2 witness: the amended equivalence at `cfgC2` and a time inside its
window (18:30), where both sides are false. -/
theorem should_wait_iff_outside_witness :
    (shouldWaitForMaintenanceWindow cfgC2 ⟨⟨2024, 1, 1⟩, 66600⟩).1 =
      !(isInMaintenanceWindow cfgC2 ⟨⟨2024, 1, 1⟩, 66600⟩) :=
  should_wait_iff_outside cfgC2 ⟨⟨2024, 1, 1⟩, 66600⟩ (by decide)

end RR
